import Mathlib

/-!
A verification development for the Comp.js component model
(`src/comp/index.ts`).  The TypeScript source is shallowly embedded:
the `Comp<T>` class becomes the structure `Comp T`, its methods become
pure functions on that structure, and the host document becomes an
explicit list of live elements correlated by the `comp-id` attribute.
Subtype dispatch of `init` (the TypeScript classes override `init` and
both the constructor and `update` invoke it virtually) is modelled by
passing the initialisation function explicitly.

Conventions of the embedding:
* The random identity produced by `Comp._generateId` is supplied as an
  explicit argument of the constructor model `Comp.new`; `generateId`
  models the generator itself with its randomness source abstracted as
  a function.
* JavaScript `undefined` and `null` attribute values are the
  `AttrValue.undef` and `AttrValue.null` constructors; objects used as
  ordered string-keyed maps become ordered association lists.
* The `parent` back-reference (a cyclic object pointer in JavaScript)
  is represented by the identity string of the owning node, which is
  all the repository ever distinguishes nodes by.
* Falsiness of JavaScript strings (`""`) and of `TagRenderMode.normal`
  (numeric value 0) is modelled explicitly where the source relies on
  it (`this.content || ...` in `_toHtml`, and
  `this.options.renderMode && ...` in `SystemComp.init`).
-/

namespace CompJs

/-- The `TagRenderMode` enum of the source (`normal = 0`, `selfClosing = 1`,
`startTag = 2`). -/
inductive TagRenderMode where
  | normal
  | selfClosing
  | startTag
deriving DecidableEq, Repr

/-- An attribute value as the serializer distinguishes them:
JavaScript `undefined`, JavaScript `null`, or a string. -/
inductive AttrValue where
  | undef
  | null
  | str (v : String)
deriving DecidableEq, Repr

/-- One entry of `Comp.registrations`:
`{ type: string, listener: EventListener, useCapture?: boolean }`.
The listener callback is opaque to the core, so it is modelled as a
numeric token. -/
structure Registration where
  type : String
  listener : Nat
  useCapture : Bool
deriving DecidableEq, Repr

/-- The serialization-relevant tree of `IComp` values: a `Literal` leaf
(`literal` field plus the `parent` reference declared on `IComp`), or a
`Comp` node with the fields read by `_toHtml` together with its
`parent` reference.  `options` and `registrations` of child nodes play
no part in serialization and are carried only for the node under
study, on the structure `Comp` below. -/
inductive IComp where
  | literal (parent : Option String) (lit : String) : IComp
  | comp (id : String) (tagName : String) (attributes : List (String × AttrValue))
      (classNames : List String) (children : List IComp) (content : Option String)
      (parent : Option String) (renderMode : Option TagRenderMode) : IComp
deriving Repr

/-- Sets the `parent` field of a node, as the assignments
`child.parent = this` in `compose` and `appendChild` do. -/
def IComp.withParent (p : String) : IComp → IComp
  | IComp.literal _ s => IComp.literal (some p) s
  | IComp.comp id tag attrs cls children content _ rm =>
      IComp.comp id tag attrs cls children content (some p) rm

/-- The `IClassNames` union type of the source:
`string | string[] | { [key: string]: boolean }`. -/
inductive IClassNames where
  | str (s : String)
  | arr (l : List String)
  | obj (l : List (String × Bool))

/-- A rest argument of `compose(..., ...children: any[])`: either a plain
string or a node. -/
inductive ChildArg where
  | text (s : String)
  | node (c : IComp)

/-- The value a `compose` argument contributes to `this.children` in the
multi-argument branch.  The repository only ever passes nodes there; a
raw string reaching that branch is modelled as a literal leaf. -/
def ChildArg.asComp : ChildArg → IComp
  | ChildArg.text s => IComp.literal none s
  | ChildArg.node c => c

/-- JavaScript `a || b` specialised to an optional string on the left:
`undefined` and the empty string are falsy.  Models the expression
`this.content || this.children.map(...).join('')` in `_toHtml`. -/
def jsOr (content : Option String) (fallback : String) : String :=
  match content with
  | none => fallback
  | some s => if s = "" then fallback else s

/-- The `comp-id="<id>"` identity marker that `_toHtml` embeds in the
opening tag of a node. -/
def identityMarker (id : String) : String :=
  "comp-id=\"" ++ id ++ "\""

/-- The filter of the local `_attr` helper of `_toHtml`:
`attr[key] !== undefined`. -/
def AttrValue.isDefined : AttrValue → Bool
  | AttrValue.undef => false
  | _ => true

/-- The map of the local `_attr` helper of `_toHtml`:
``attr[key] !== null ? `${key}="${attr[key]}"` : key``.  A `null` value
renders as the bare key; any non-null value is interpolated, so the
(always filtered-out) `undefined` would interpolate as the string
`"undefined"`. -/
def renderAttr (k : String) : AttrValue → String
  | AttrValue.null => k
  | AttrValue.undef => k ++ "=\"undefined\""
  | AttrValue.str v => k ++ "=\"" ++ v ++ "\""

/-- The local `_attr` helper of `_toHtml`: keys in insertion order,
entries with `undefined` filtered out, each remaining entry rendered by
`renderAttr`, joined with single spaces. -/
def attrStr (attrs : List (String × AttrValue)) : String :=
  String.intercalate " "
    ((attrs.filter (fun p => p.2.isDefined)).map (fun p => renderAttr p.1 p.2))

mutual

/-- `_toHtml`, on both `Literal` (returns the stored literal) and `Comp`
(three-way branch on `renderMode`; an undefined `renderMode` falls
through to the normal branch).  The string is assembled by the same
template as the source:
``<tag comp-id="id" class="joined classes" attrs>inner</tag>`` with
`inner = this.content || children`. -/
def IComp.toHtml : IComp → String
  | IComp.literal _ s => s
  | IComp.comp id tag attrs cls children content _ rm =>
    if rm = some TagRenderMode.selfClosing then
      "<" ++ tag ++ " " ++ identityMarker id ++ " class=\"" ++
        String.intercalate " " cls ++ "\" " ++ attrStr attrs ++ " />"
    else if rm = some TagRenderMode.startTag then
      "<" ++ tag ++ ">"
    else
      "<" ++ tag ++ " " ++ identityMarker id ++ " class=\"" ++
        String.intercalate " " cls ++ "\" " ++ attrStr attrs ++ ">" ++
        jsOr content (childrenHtml children) ++ "</" ++ tag ++ ">"

/-- `this.children.map(child => child._toHtml()).join('')`. -/
def childrenHtml : List IComp → String
  | [] => ""
  | c :: cs => IComp.toHtml c ++ childrenHtml cs

end

/-- The state of one `Comp<T>` object: every field of the class.
`options` is the backing configuration of type `T`. -/
structure Comp (T : Type) where
  id : String
  options : T
  tagName : String
  attributes : List (String × AttrValue)
  classNames : List String
  children : List IComp
  content : Option String
  parent : Option String
  registrations : List Registration
  renderMode : Option TagRenderMode

/-- The serialization-relevant view of a `Comp` state as a tree node. -/
def Comp.tree (st : Comp T) : IComp :=
  IComp.comp st.id st.tagName st.attributes st.classNames st.children
    st.content st.parent st.renderMode

/-- `_toHtml` invoked on the node under study. -/
def Comp.toHtml (st : Comp T) : String :=
  IComp.toHtml st.tree

/-- The base-62 alphabet of `_generateId`. -/
def base62Chars : String :=
  "0123456789ABCDEFGHIJKLMNOPQRSTUVWXYZabcdefghijklmnopqrstuvwxyz"

/-- `_generateId(length)`: `length` characters drawn from `base62Chars`
at indices `Math.floor(Math.random() * 62)`; the randomness source is
abstracted as the function `random`. -/
def generateId (random : Nat → Nat) (length : Nat) : String :=
  String.mk ((List.range length).map
    (fun i => base62Chars.data.getD (random i % 62) (Char.ofNat 48)))

/-- JavaScript `split` with a single-character separator, as in
`classNames.split(' ')`: empty pieces are kept and the empty string
splits to `[""]`. -/
def jsSplit (sep : Char) : List Char → List (List Char)
  | [] => [[]]
  | c :: cs =>
    let r := jsSplit sep cs
    if c = sep then [] :: r
    else
      match r with
      | [] => [[c]]
      | h :: t => (c :: h) :: t

/-- The `classes` normalization performed at the top of `compose`:
a string is split on spaces; an array is used as is; an object becomes
the list of its keys with a true value, in insertion order (the source
computes `Object.keys(classNames).filter(key => classNames[key])`; keys
of a JavaScript object are unique). -/
def normalizeClassNames : IClassNames → List String
  | IClassNames.str s => (jsSplit ' ' s.data).map String.mk
  | IClassNames.arr l => l
  | IClassNames.obj l => (l.filter (fun p => p.2)).map (fun p => p.1)

/-- `Comp.init` (the base class): resets `tagName` to `'div'`,
`attributes` to `{}`, `classNames` to `[]`, `children` to `[]` and
`registrations` to `[]`.  No other field is touched. -/
def Comp.init (st : Comp T) : Comp T :=
  { st with tagName := "div", attributes := [], classNames := [],
            children := [], registrations := [] }

/-- `Comp.compose(tagName, attributes, classNames, ...children)`:
stores the tag and attributes, normalizes the class names, then either
stores a single string argument as `content` (leaving `children`
untouched) or stores the argument sequence as `children`, setting each
child `parent` reference to this node. -/
def Comp.compose (st : Comp T) (tagName : String)
    (attributes : List (String × AttrValue)) (classNames : IClassNames)
    (children : List ChildArg) : Comp T :=
  let st1 := { st with tagName := tagName, attributes := attributes,
                       classNames := normalizeClassNames classNames }
  match children with
  | [ChildArg.text s] => { st1 with content := some s }
  | args => { st1 with children := args.map (fun a => a.asComp.withParent st1.id) }

/-- `Comp.appendChild(child)`: sets the child parent reference and
pushes the child onto `children`. -/
def Comp.appendChild (st : Comp T) (child : IComp) : Comp T :=
  { st with children := st.children ++ [child.withParent st.id] }

/-- `Comp.register(type, listener, useCapture)`: appends one entry to
`registrations`. -/
def Comp.register (st : Comp T) (type : String) (listener : Nat)
    (useCapture : Bool) : Comp T :=
  { st with registrations :=
      st.registrations ++ [{ type := type, listener := listener, useCapture := useCapture }] }

/-- The node-state part of `Comp.update(options)`:
`Object.assign(this.options, options)` (abstracted as the shallow-merge
function `merge`) followed by the virtual `this.init()` call
(abstracted as `initF`). -/
def Comp.updateState (initF : Comp T → Comp T) (merge : T → P → T)
    (st : Comp T) (o : P) : Comp T :=
  initF { st with options := merge st.options o }

/-- The constructor `new Comp(options)`: assigns the generated identity
(supplied here explicitly in place of `this._generateId(8)`), stores
the options and invokes the virtual `init`. -/
def Comp.new (initF : Comp T → Comp T) (id : String) (options : T) : Comp T :=
  initF { id := id, options := options, tagName := "", attributes := [],
          classNames := [], children := [], content := none, parent := none,
          registrations := [], renderMode := none }

/-- `BuiltinComp.init` (identical to `UserComp.init`): the base reset,
then `tagName = 'div'` and `renderMode = TagRenderMode.normal`. -/
def BuiltinComp.init (st : Comp T) : Comp T :=
  let st1 := Comp.init st
  { st1 with tagName := "div", renderMode := some TagRenderMode.normal }

/-- JavaScript property assignment `attrs[k] = v` on an ordered map: an
existing key keeps its position, a new key is appended. -/
def setAttr (attrs : List (String × AttrValue)) (k : String) (v : AttrValue) :
    List (String × AttrValue) :=
  if attrs.any (fun p => p.1 == k) then
    attrs.map (fun p => if p.1 == k then (p.1, v) else p)
  else attrs ++ [(k, v)]

/-- The options shape of `For<T>`:
`{ data: T[], mapper: (item: T) => IComp }`. -/
structure ForOptions (α : Type) where
  data : List α
  mapper : α → IComp

/-- A partial `For` options object as passed to `update`: each field
present or absent. -/
structure ForOptionsPartial (α : Type) where
  data : Option (List α)
  mapper : Option (α → IComp)

/-- `Object.assign` of a partial `For` options object into a full one:
present fields overwrite, absent fields leave the target untouched. -/
def For.mergeOptions (o : ForOptions α) (p : ForOptionsPartial α) : ForOptions α :=
  { data := p.data.getD o.data, mapper := p.mapper.getD o.mapper }

/-- `For.init`: `super.init()` (the `BuiltinComp` reset), then
`this.attributes['comp-for'] = null`, then
`this.options.data.forEach(item => this.children.push(this.options.mapper(item)))`. -/
def For.init (st : Comp (ForOptions α)) : Comp (ForOptions α) :=
  let st1 := BuiltinComp.init st
  let st2 := { st1 with attributes := setAttr st1.attributes "comp-for" AttrValue.null }
  { st2 with children := st2.children ++ st2.options.data.map st2.options.mapper }

/-- A live element of the host document: the value of its `comp-id`
attribute (absent for markup without the identity marker), its markup,
and the listeners attached to it. -/
structure LiveElem where
  compId : Option String
  html : String
  listeners : List Registration
deriving DecidableEq, Repr

/-- `document.querySelector('[comp-id=...]')`: the first element in
document order carrying the given identity. -/
def querySelectorById (id : String) (doc : List LiveElem) : Option LiveElem :=
  doc.find? (fun e => e.compId == some id)

/-- `Comp._element()`. -/
def Comp.element (st : Comp T) (doc : List LiveElem) : Option LiveElem :=
  querySelectorById st.id doc

/-- `element.addEventListener` reached through `this._element()`: the
listener is appended on the first element carrying the identity. -/
def addEventListenerFirst (id : String) (r : Registration) :
    List LiveElem → List LiveElem
  | [] => []
  | e :: es =>
    if e.compId == some id then { e with listeners := e.listeners ++ [r] } :: es
    else e :: addEventListenerFirst id r es

/-- `Comp._doRegistrations()`: attaches every entry of `registrations`,
in order, to the live element found by the node identity. -/
def Comp.doRegistrations (st : Comp T) (doc : List LiveElem) : List LiveElem :=
  st.registrations.foldl (fun d r => addEventListenerFirst st.id r d) doc

/-- The `comp-id` attribute carried by the markup `_toHtml` produces:
present (with the node identity) except in start-tag render mode, whose
markup is the bare `<tag>`. -/
def markupCompId (st : Comp T) : Option String :=
  if st.renderMode = some TagRenderMode.startTag then none else some st.id

/-- The document effect of
`old.insertAdjacentHTML('beforebegin', this._toHtml()); old.remove()`:
the first element carrying the identity is replaced in place by the
freshly parsed element.  `none` when no such element exists, in which
case the source dereferences `null` and throws. -/
def domReplaceFirst (id : String) (e : LiveElem) :
    List LiveElem → Option (List LiveElem)
  | [] => none
  | x :: xs =>
    if x.compId == some id then some (e :: xs)
    else (domReplaceFirst id e xs).map (fun d => x :: d)

/-- `Comp.update(options)` in full: merge the partial options, re-run
the virtual `init`, replace the live counterpart (located by the
post-init identity) with the freshly serialized markup, then attach the
current registrations to the live element found by the identity.
Returns the new node state and document, or `none` when no live
counterpart exists (the source throws). -/
def Comp.update (initF : Comp T → Comp T) (merge : T → P → T)
    (st : Comp T) (o : P) (doc : List LiveElem) :
    Option (Comp T × List LiveElem) :=
  let st2 := Comp.updateState initF merge st o
  match domReplaceFirst st2.id
      { compId := markupCompId st2, html := Comp.toHtml st2, listeners := [] } doc with
  | none => none
  | some doc2 => some (st2, Comp.doRegistrations st2 doc2)

/-- Spec-side rendering of one attribute entry, following the spec
wording: skip if the value is `undefined`; emit the bare key if the
value is `null`; else emit `key="value"`. -/
def attrEntrySpec : String × AttrValue → Option String
  | (_, AttrValue.undef) => none
  | (k, AttrValue.null) => some k
  | (k, AttrValue.str v) => some (k ++ "=\"" ++ v ++ "\"")

/-- Spec-side attribute serialization: the rendered entries, in
insertion order, joined with single spaces. -/
def attrStringSpec (attrs : List (String × AttrValue)) : String :=
  String.intercalate " " (attrs.filterMap attrEntrySpec)

/-- Spec-side opening-tag shape of a normally rendered node: the
identity marker first, then the space-joined class list, then the other
attributes, exactly in that order. -/
def openingTagSpec (tag id : String) (classes : List String)
    (attrs : List (String × AttrValue)) : String :=
  "<" ++ tag ++ " " ++ identityMarker id ++ " class=\"" ++
    String.intercalate " " classes ++ "\" " ++ attrStringSpec attrs ++ ">"

/-! Concrete states used by witnesses and counterexamples. -/

/-- A freshly constructed base node for the identity witness. -/
def c1Node : Comp Unit :=
  Comp.new Comp.init "Ab3xYz9Q" ()

/-- A base node with a listener registered after construction: built by
the public operations `new` then `register`. -/
def c2Node : Comp Unit :=
  Comp.register (Comp.new Comp.init "n2" ()) "click" 7 false

/-- A one-element document whose sole live element carries the identity
of `c2Node`, with no listeners attached yet. -/
def c2Doc : List LiveElem :=
  [{ compId := some "n2", html := "<div comp-id=\"n2\" class=\"\" ></div>",
     listeners := [] }]

/-- The node state a witness update starts from. -/
def c2wNode : Comp Unit :=
  Comp.register (Comp.new Comp.init "w1" ()) "keyup" 3 true

/-- The matching one-element document for `c2wNode`. -/
def c2wDoc : List LiveElem :=
  [{ compId := some "w1", html := "<div comp-id=\"w1\" class=\"\" ></div>",
     listeners := [] }]

/-- The node state after the witness update. -/
def c2wAfter : Comp Unit :=
  Comp.updateState Comp.init (fun (u : Unit) (_ : Unit) => u) c2wNode ()

/-- The document after the witness update. -/
def c2wDoc2 : List LiveElem :=
  Comp.doRegistrations c2wAfter
    [{ compId := some "w1", html := Comp.toHtml c2wAfter, listeners := [] }]

/-- A node holding the empty string as `content` and a populated child
sequence at the same time, reached through the public operations:
construction, `appendChild`, then `compose` with a single empty-string
text argument. -/
def c3Node : Comp Unit :=
  Comp.compose (Comp.appendChild (Comp.new Comp.init "n3" ()) (IComp.literal none "x"))
    "div" [] (IClassNames.arr []) [ChildArg.text ""]

/-- A node with nonempty `content` and a populated child sequence. -/
def c3wNode : Comp Unit :=
  Comp.appendChild
    (Comp.compose (Comp.new Comp.init "n3w" ()) "p" [] (IClassNames.arr ["c1"])
      [ChildArg.text "hello"])
    (IComp.literal none "ignored")

/-- A self-closing node with both `content` and `children` populated. -/
def c8Node : Comp Unit :=
  { id := "n8", options := (), tagName := "img",
    attributes := [("src", AttrValue.str "a.png"), ("hidden", AttrValue.null),
                   ("x", AttrValue.undef)],
    classNames := ["pic", "big"], children := [IComp.literal none "junk"],
    content := some "junk2", parent := none, registrations := [],
    renderMode := some TagRenderMode.selfClosing }

/-- A normally rendered node with attributes of all three value kinds. -/
def c9Node : Comp Unit :=
  Comp.compose (Comp.new Comp.init "n9" ()) "a"
    [("href", AttrValue.str "/x"), ("u", AttrValue.undef), ("disabled", AttrValue.null)]
    (IClassNames.str "m n") [ChildArg.node (IComp.literal none "t")]

/-- Concrete `For` options for the update witness. -/
def c4Opts : ForOptions Nat :=
  { data := [1, 2, 3], mapper := fun n => IComp.literal none (toString n) }

/-- First partial update: a shorter data sequence. -/
def c4P1 : ForOptionsPartial Nat :=
  { data := some [5], mapper := none }

/-- Second partial update: a two-element data sequence. -/
def c4P2 : ForOptionsPartial Nat :=
  { data := some [7, 8], mapper := none }

/-! Helper lemmas shared between the claim theorems. -/

/-- The `_attr` helper of the source agrees entry-wise with the
spec-side attribute renderer. -/
theorem attrStr_eq_attrStringSpec (attrs : List (String × AttrValue)) :
    attrStr attrs = attrStringSpec attrs := by
  unfold attrStr attrStringSpec
  congr 1
  induction attrs with
  | nil => rfl
  | cons p rest ih =>
    obtain ⟨k, v⟩ := p
    cases v <;> simp_all [AttrValue.isDefined, renderAttr, attrEntrySpec]

/-- Unfolding of `_toHtml` in the normal branch. -/
theorem toHtml_normal (st : Comp T)
    (h1 : st.renderMode ≠ some TagRenderMode.selfClosing)
    (h2 : st.renderMode ≠ some TagRenderMode.startTag) :
    Comp.toHtml st =
      "<" ++ st.tagName ++ " " ++ identityMarker st.id ++ " class=\"" ++
        String.intercalate " " st.classNames ++ "\" " ++ attrStr st.attributes ++ ">" ++
        jsOr st.content (childrenHtml st.children) ++ "</" ++ st.tagName ++ ">" := by
  simp [Comp.toHtml, Comp.tree, IComp.toHtml, h1, h2]

/-- Unfolding of `_toHtml` in the self-closing branch. -/
theorem toHtml_selfClosing (st : Comp T)
    (h : st.renderMode = some TagRenderMode.selfClosing) :
    Comp.toHtml st =
      "<" ++ st.tagName ++ " " ++ identityMarker st.id ++ " class=\"" ++
        String.intercalate " " st.classNames ++ "\" " ++ attrStr st.attributes ++ " />" := by
  simp [Comp.toHtml, Comp.tree, IComp.toHtml, h]

/-- Whenever the markup of a node carries attributes at all (every mode
except start-tag-only), the identity marker of the node occurs verbatim
inside it. -/
theorem marker_infix_toHtml (st : Comp T)
    (h : st.renderMode ≠ some TagRenderMode.startTag) :
    (identityMarker st.id).data <:+: (Comp.toHtml st).data := by
  by_cases hsc : st.renderMode = some TagRenderMode.selfClosing
  · rw [toHtml_selfClosing st hsc]
    refine ⟨("<" ++ st.tagName ++ " ").data,
      (" class=\"" ++ String.intercalate " " st.classNames ++ "\" " ++
        attrStr st.attributes ++ " />").data, ?_⟩
    simp [String.data_append]
  · rw [toHtml_normal st hsc h]
    refine ⟨("<" ++ st.tagName ++ " ").data,
      (" class=\"" ++ String.intercalate " " st.classNames ++ "\" " ++
        attrStr st.attributes ++ ">" ++
        jsOr st.content (childrenHtml st.children) ++ "</" ++ st.tagName ++ ">").data, ?_⟩
    simp [String.data_append]

/-! The claims. -/

/-- C10: the base `init` resets exactly `tagName`, `attributes`,
`classNames`, `children` and `registrations`, and leaves `id`,
`options`, `parent`, `renderMode` and `content` unchanged; hence a
previously set `renderMode` or `content` also survives a base-dispatch
`update`, which re-invokes it. -/
theorem C10_base_init_frame (T P : Type) (merge : T → P → T)
    (st : Comp T) (o : P) :
    Comp.init st =
      { id := st.id, options := st.options, tagName := "div", attributes := [],
        classNames := [], children := [], content := st.content,
        parent := st.parent, registrations := [], renderMode := st.renderMode } ∧
    (Comp.updateState Comp.init merge st o).content = st.content ∧
    (Comp.updateState Comp.init merge st o).renderMode = st.renderMode ∧
    (Comp.updateState Comp.init merge st o).id = st.id ∧
    (Comp.updateState Comp.init merge st o).parent = st.parent :=
  ⟨rfl, rfl, rfl, rfl, rfl⟩

/-- C5: attribute serialization renders each key in insertion order,
omitting entries with an `undefined` value, emitting a bare key for a
`null` value and `key="value"` otherwise, joined by single spaces —
stated as agreement of the source serializer with the spec-side
entry-wise renderer. -/
theorem C5_attribute_serialization (attrs : List (String × AttrValue)) :
    attrStr attrs = attrStringSpec attrs :=
  attrStr_eq_attrStringSpec attrs

/-- C7: a single plain-text `compose` argument becomes `content` with
`children` left untouched; any other argument sequence of nodes becomes
`children` verbatim, each child receiving this node as its parent
reference, with `content` left untouched. -/
theorem C7_compose_children (T : Type) (st : Comp T) (tag : String)
    (attrs : List (String × AttrValue)) (cls : IClassNames) :
    (∀ s : String,
        (Comp.compose st tag attrs cls [ChildArg.text s]).content = some s ∧
        (Comp.compose st tag attrs cls [ChildArg.text s]).children = st.children) ∧
    (∀ cs : List IComp,
        (Comp.compose st tag attrs cls (cs.map ChildArg.node)).children =
            cs.map (fun c => c.withParent st.id) ∧
        (Comp.compose st tag attrs cls (cs.map ChildArg.node)).content = st.content) := by
  constructor
  · intro s
    exact ⟨rfl, rfl⟩
  · intro cs
    cases cs with
    | nil => exact ⟨rfl, rfl⟩
    | cons c rest =>
      cases rest with
      | nil => exact ⟨rfl, rfl⟩
      | cons c2 rest2 =>
        refine ⟨?_, rfl⟩
        simp [Comp.compose, ChildArg.asComp, List.map_map, Function.comp]

/-- C1: the identity is assigned once at construction; updating twice
leaves the `id` field unchanged, and hence (whenever the render mode
emits attributes at all) the identity marker embedded in the serialized
markup is still that of the original identity. -/
theorem C1_update_preserves_identity (T P : Type) (initF : Comp T → Comp T)
    (merge : T → P → T) (st : Comp T) (o1 o2 : P)
    (hid : ∀ s, (initF s).id = s.id) :
    (Comp.updateState initF merge (Comp.updateState initF merge st o1) o2).id = st.id ∧
    ((Comp.updateState initF merge (Comp.updateState initF merge st o1) o2).renderMode
        ≠ some TagRenderMode.startTag →
      (identityMarker st.id).data <:+:
        (Comp.toHtml (Comp.updateState initF merge
          (Comp.updateState initF merge st o1) o2)).data) := by
  have hsame : (Comp.updateState initF merge
      (Comp.updateState initF merge st o1) o2).id = st.id := by
    simp [Comp.updateState, hid]
  refine ⟨hsame, fun h => ?_⟩
  have hmark := marker_infix_toHtml
    (Comp.updateState initF merge (Comp.updateState initF merge st o1) o2) h
  rwa [hsame] at hmark

/-- C1 witness: the base `init` preserves the identity, and the double
update of the concrete node `c1Node` keeps its identity and marker. -/
theorem C1_update_preserves_identity_witness :
    (∀ s : Comp Unit, (Comp.init s).id = s.id) ∧
    ((Comp.updateState Comp.init (fun (u : Unit) (_ : Unit) => u)
        (Comp.updateState Comp.init (fun (u : Unit) (_ : Unit) => u) c1Node ()) ()).id
      = c1Node.id ∧
    ((Comp.updateState Comp.init (fun (u : Unit) (_ : Unit) => u)
        (Comp.updateState Comp.init (fun (u : Unit) (_ : Unit) => u) c1Node ()) ()).renderMode
        ≠ some TagRenderMode.startTag →
      (identityMarker c1Node.id).data <:+:
        (Comp.toHtml (Comp.updateState Comp.init (fun (u : Unit) (_ : Unit) => u)
          (Comp.updateState Comp.init (fun (u : Unit) (_ : Unit) => u) c1Node ()) ())).data)) :=
  ⟨fun _ => rfl,
    C1_update_preserves_identity Unit Unit Comp.init (fun u _ => u) c1Node () ()
      (fun _ => rfl)⟩

/-- C3 is refuted at `c3Node`, reached through the public operations
(`new`, `appendChild`, then `compose` with the single text argument
`""`): its `content` field is set (to the empty string) and its child
sequence is populated, yet the serializer emits the child markup `x` as
the inner markup instead of the content, because `_toHtml` tests
`this.content` for truthiness and the empty string is falsy. -/
theorem C3_counterexample :
    c3Node.content = some "" ∧
    c3Node.children = [IComp.literal (some "n3") "x"] ∧
    Comp.toHtml c3Node = "<div comp-id=\"n3\" class=\"\" >x</div>" ∧
    Comp.toHtml c3Node ≠ "<div comp-id=\"n3\" class=\"\" ></div>" :=
  ⟨rfl, rfl, rfl, by decide⟩

/-- C3 (amended): for every node whose `content` field is set to a
nonempty string, serialization in the normal render mode emits that
content as the inner markup and ignores any populated child sequence,
silently and without raising an error. -/
theorem C3_amended_content_precedence (T : Type) (st : Comp T) (c : String)
    (h1 : st.renderMode ≠ some TagRenderMode.selfClosing)
    (h2 : st.renderMode ≠ some TagRenderMode.startTag)
    (hc : st.content = some c) (hne : c ≠ "") :
    Comp.toHtml st =
      "<" ++ st.tagName ++ " " ++ identityMarker st.id ++ " class=\"" ++
        String.intercalate " " st.classNames ++ "\" " ++ attrStr st.attributes ++ ">" ++
        c ++ "</" ++ st.tagName ++ ">" ∧
    ∀ ch : List IComp, Comp.toHtml { st with children := ch } = Comp.toHtml st := by
  have hfirst : Comp.toHtml st =
      "<" ++ st.tagName ++ " " ++ identityMarker st.id ++ " class=\"" ++
        String.intercalate " " st.classNames ++ "\" " ++ attrStr st.attributes ++ ">" ++
        c ++ "</" ++ st.tagName ++ ">" := by
    rw [toHtml_normal st h1 h2, hc]
    simp [jsOr, hne]
  refine ⟨hfirst, fun ch => ?_⟩
  rw [toHtml_normal ({ st with children := ch }) h1 h2, toHtml_normal st h1 h2]
  simp [hc, jsOr, hne]

/-- C3 (amended) witness: the node `c3wNode` has content `hello` and a
populated child sequence, and serializes with `hello` as inner markup. -/
theorem C3_amended_content_precedence_witness :
    c3wNode.renderMode ≠ some TagRenderMode.selfClosing ∧
    c3wNode.renderMode ≠ some TagRenderMode.startTag ∧
    c3wNode.content = some "hello" ∧ "hello" ≠ "" ∧
    (Comp.toHtml c3wNode =
      "<" ++ c3wNode.tagName ++ " " ++ identityMarker c3wNode.id ++ " class=\"" ++
        String.intercalate " " c3wNode.classNames ++ "\" " ++ attrStr c3wNode.attributes ++
        ">" ++ "hello" ++ "</" ++ c3wNode.tagName ++ ">" ∧
    ∀ ch : List IComp, Comp.toHtml { c3wNode with children := ch } = Comp.toHtml c3wNode) :=
  ⟨by decide, by decide, rfl, by decide,
    C3_amended_content_precedence Unit c3wNode "hello" (by decide) (by decide) rfl (by decide)⟩

/-- The class list a `compose` call stores, for any argument shape. -/
theorem compose_classNames (st : Comp T) (tag : String)
    (attrs : List (String × AttrValue)) (cls : IClassNames) (args : List ChildArg) :
    (Comp.compose st tag attrs cls args).classNames = normalizeClassNames cls := by
  unfold Comp.compose
  cases args with
  | nil => rfl
  | cons a rest =>
    cases a with
    | text s =>
      cases rest with
      | nil => rfl
      | cons b r2 => rfl
    | node c => rfl

/-- C6: the three accepted class-name shapes (space-delimited string,
ordered sequence, boolean mapping) produce the same composed node, and
hence the same serialized markup, whenever their effective ordered list
of true class names is the same. -/
theorem C6_classnames_three_shapes (T : Type) (st : Comp T) (tag : String)
    (attrs : List (String × AttrValue)) (args : List ChildArg)
    (s : String) (l : List String) (m : List (String × Bool))
    (hs : (jsSplit ' ' s.data).map String.mk = l)
    (hm : (m.filter (fun p => p.2)).map (fun p => p.1) = l) :
    Comp.compose st tag attrs (IClassNames.str s) args =
        Comp.compose st tag attrs (IClassNames.arr l) args ∧
    Comp.compose st tag attrs (IClassNames.obj m) args =
        Comp.compose st tag attrs (IClassNames.arr l) args ∧
    (Comp.compose st tag attrs (IClassNames.arr l) args).classNames = l ∧
    Comp.toHtml (Comp.compose st tag attrs (IClassNames.str s) args) =
        Comp.toHtml (Comp.compose st tag attrs (IClassNames.arr l) args) := by
  have e1 : normalizeClassNames (IClassNames.str s) = normalizeClassNames (IClassNames.arr l) := by
    simp [normalizeClassNames, hs]
  have e2 : normalizeClassNames (IClassNames.obj m) = normalizeClassNames (IClassNames.arr l) := by
    simp [normalizeClassNames, hm]
  have k1 : Comp.compose st tag attrs (IClassNames.str s) args =
      Comp.compose st tag attrs (IClassNames.arr l) args := by
    unfold Comp.compose
    rw [e1]
  have k2 : Comp.compose st tag attrs (IClassNames.obj m) args =
      Comp.compose st tag attrs (IClassNames.arr l) args := by
    unfold Comp.compose
    rw [e2]
  exact ⟨k1, k2, compose_classNames st tag attrs (IClassNames.arr l) args, by rw [k1]⟩

/-- C6 witness: the string `"m n"`, the sequence `["m", "n"]` and the
mapping with `m` and `n` true and `q` false compose identically. -/
theorem C6_classnames_three_shapes_witness :
    (jsSplit ' ' "m n".data).map String.mk = ["m", "n"] ∧
    (([("m", true), ("q", false), ("n", true)].filter (fun p => p.2)).map (fun p => p.1)
      = ["m", "n"]) ∧
    (Comp.compose c1Node "div" [] (IClassNames.str "m n") [] =
        Comp.compose c1Node "div" [] (IClassNames.arr ["m", "n"]) [] ∧
    Comp.compose c1Node "div" [] (IClassNames.obj [("m", true), ("q", false), ("n", true)]) [] =
        Comp.compose c1Node "div" [] (IClassNames.arr ["m", "n"]) [] ∧
    (Comp.compose c1Node "div" [] (IClassNames.arr ["m", "n"]) []).classNames = ["m", "n"] ∧
    Comp.toHtml (Comp.compose c1Node "div" [] (IClassNames.str "m n") []) =
        Comp.toHtml (Comp.compose c1Node "div" [] (IClassNames.arr ["m", "n"]) [])) :=
  ⟨rfl, rfl,
    C6_classnames_three_shapes Unit c1Node "div" [] [] "m n" ["m", "n"]
      [("m", true), ("q", false), ("n", true)] rfl rfl⟩

/-- C8: a self-closing node serializes to the self-terminating form
with no inner content and no closing tag, and the result is independent
of whatever `content` and `children` hold. -/
theorem C8_selfclosing_ignores_content (T : Type) (st : Comp T)
    (h : st.renderMode = some TagRenderMode.selfClosing) :
    Comp.toHtml st =
      "<" ++ st.tagName ++ " " ++ identityMarker st.id ++ " class=\"" ++
        String.intercalate " " st.classNames ++ "\" " ++ attrStr st.attributes ++ " />" ∧
    ∀ (c : Option String) (ch : List IComp),
      Comp.toHtml { st with content := c, children := ch } = Comp.toHtml st := by
  refine ⟨toHtml_selfClosing st h, fun c ch => ?_⟩
  rw [toHtml_selfClosing ({ st with content := c, children := ch }) h,
    toHtml_selfClosing st h]

/-- C8 witness: the concrete self-closing node `c8Node`, which holds
both a populated `content` and a populated `children` field. -/
theorem C8_selfclosing_ignores_content_witness :
    c8Node.renderMode = some TagRenderMode.selfClosing ∧
    (Comp.toHtml c8Node =
      "<" ++ c8Node.tagName ++ " " ++ identityMarker c8Node.id ++ " class=\"" ++
        String.intercalate " " c8Node.classNames ++ "\" " ++ attrStr c8Node.attributes ++
        " />" ∧
    ∀ (c : Option String) (ch : List IComp),
      Comp.toHtml { c8Node with content := c, children := ch } = Comp.toHtml c8Node) :=
  ⟨rfl, C8_selfclosing_ignores_content Unit c8Node rfl⟩

/-- C9: every non-leaf node serialized in the normal branch has exactly
the spec-mandated shape: opening tag with the identity marker first,
then the space-joined class attribute, then the remaining attributes
(rendered entry-wise as the spec prescribes), then the inner markup and
the closing tag. -/
theorem C9_markup_shape (T : Type) (st : Comp T)
    (h1 : st.renderMode ≠ some TagRenderMode.selfClosing)
    (h2 : st.renderMode ≠ some TagRenderMode.startTag) :
    Comp.toHtml st =
      openingTagSpec st.tagName st.id st.classNames st.attributes ++
        jsOr st.content (childrenHtml st.children) ++ "</" ++ st.tagName ++ ">" := by
  rw [toHtml_normal st h1 h2]
  unfold openingTagSpec
  rw [attrStr_eq_attrStringSpec]

/-- The identity lookup returns the head element when the head carries
the identity. -/
theorem querySelectorById_cons_pos (x : LiveElem) (xs : List LiveElem) (id : String)
    (h : (x.compId == some id) = true) : querySelectorById id (x :: xs) = some x := by
  unfold querySelectorById
  simp [List.find?, h]

/-- The identity lookup skips a head element not carrying the identity. -/
theorem querySelectorById_cons_neg (x : LiveElem) (xs : List LiveElem) (id : String)
    (h : (x.compId == some id) = false) :
    querySelectorById id (x :: xs) = querySelectorById id xs := by
  unfold querySelectorById
  simp [List.find?, h]

/-- Replacing the first element carrying an identity leaves the
replacement as the first element found for that identity. -/
theorem querySelector_domReplaceFirst (id : String) (e : LiveElem)
    (he : e.compId = some id) :
    ∀ (doc doc2 : List LiveElem), domReplaceFirst id e doc = some doc2 →
      querySelectorById id doc2 = some e := by
  intro doc
  induction doc with
  | nil =>
    intro doc2 h
    simp [domReplaceFirst] at h
  | cons x xs ih =>
    intro doc2 h
    unfold domReplaceFirst at h
    cases hxx : x.compId == some id with
    | true =>
      rw [if_pos hxx] at h
      injection h with h2
      subst h2
      exact querySelectorById_cons_pos e xs id (by simp [he])
    | false =>
      rw [if_neg (by simp [hxx])] at h
      cases hd : domReplaceFirst id e xs with
      | none => rw [hd] at h; simp at h
      | some d =>
        rw [hd] at h
        simp only [Option.map_some'] at h
        injection h with h2
        subst h2
        rw [querySelectorById_cons_neg x d id hxx]
        exact ih d hd

/-- Attaching one listener through the identity lookup updates exactly
the first element found for that identity. -/
theorem querySelector_addEventListenerFirst (id : String) (r : Registration) :
    ∀ (doc : List LiveElem) (e : LiveElem), querySelectorById id doc = some e →
      querySelectorById id (addEventListenerFirst id r doc) =
        some { e with listeners := e.listeners ++ [r] } := by
  intro doc
  induction doc with
  | nil =>
    intro e h
    simp [querySelectorById] at h
  | cons x xs ih =>
    intro e h
    cases hxx : x.compId == some id with
    | true =>
      rw [querySelectorById_cons_pos x xs id hxx] at h
      injection h with h2
      subst h2
      unfold addEventListenerFirst
      rw [if_pos hxx]
      exact querySelectorById_cons_pos _ xs id (by simpa using hxx)
    | false =>
      rw [querySelectorById_cons_neg x xs id hxx] at h
      unfold addEventListenerFirst
      rw [if_neg (by simp [hxx])]
      rw [querySelectorById_cons_neg x _ id hxx]
      exact ih e h

/-- Attaching a whole registration list through the identity lookup
appends exactly that list, in order, to the listeners of the first
element found for the identity. -/
theorem querySelector_attachAll (id : String) :
    ∀ (rs : List Registration) (doc : List LiveElem) (e : LiveElem),
      querySelectorById id doc = some e →
      querySelectorById id (rs.foldl (fun d r => addEventListenerFirst id r d) doc) =
        some { e with listeners := e.listeners ++ rs } := by
  intro rs
  induction rs with
  | nil =>
    intro doc e h
    simpa using h
  | cons r rest ih =>
    intro doc e h
    rw [List.foldl_cons]
    have h1 := querySelector_addEventListenerFirst id r doc e h
    have h2 := ih (addEventListenerFirst id r doc) _ h1
    simpa [List.append_assoc] using h2

/-- C2 is refuted at `c2Node`: the click listener registered (through
`register`) after construction is present in the pending-listener list
before the update, yet after the update the live counterpart correlated
to the node identity carries no listeners at all, because `update`
re-runs `init`, which resets `registrations` to the empty list before
`_doRegistrations` runs. -/
theorem C2_counterexample :
    ({ type := "click", listener := 7, useCapture := false } : Registration) ∈
      c2Node.registrations ∧
    (Comp.update Comp.init (fun (u : Unit) (_ : Unit) => u) c2Node () c2Doc).bind
        (fun p => querySelectorById "n2" p.2) =
      some { compId := some "n2", html := "<div comp-id=\"n2\" class=\"\" ></div>",
             listeners := [] } :=
  ⟨by decide, rfl⟩

/-- C2 (amended): after `update` returns on a mounted node, the live
counterpart found by the node identity is the freshly inserted element
and the listeners bound to it are exactly the registrations produced by
the re-run of `init` — registrations made outside `init` before the
update are cleared by the `init` reset and are not re-bound. -/
theorem C2_amended_update_rebinds_init_registrations (T P : Type)
    (initF : Comp T → Comp T) (merge : T → P → T) (st : Comp T) (o : P)
    (doc doc2 : List LiveElem) (st2 : Comp T)
    (hid : ∀ s, (initF s).id = s.id)
    (hrm : (Comp.updateState initF merge st o).renderMode ≠ some TagRenderMode.startTag)
    (h : Comp.update initF merge st o doc = some (st2, doc2)) :
    st2 = Comp.updateState initF merge st o ∧
    querySelectorById st.id doc2 =
      some { compId := some st.id, html := Comp.toHtml st2,
             listeners := st2.registrations } := by
  have hidU : (Comp.updateState initF merge st o).id = st.id := by
    simp [Comp.updateState, hid]
  have hmark : markupCompId (Comp.updateState initF merge st o) =
      some (Comp.updateState initF merge st o).id := by
    unfold markupCompId
    rw [if_neg hrm]
  simp only [Comp.update] at h
  cases hd : domReplaceFirst (Comp.updateState initF merge st o).id
      { compId := markupCompId (Comp.updateState initF merge st o),
        html := Comp.toHtml (Comp.updateState initF merge st o), listeners := [] } doc with
  | none =>
    rw [hd] at h
    simp at h
  | some doc1 =>
    rw [hd] at h
    simp only [Option.some.injEq, Prod.mk.injEq] at h
    obtain ⟨hst2, hdoc2⟩ := h
    subst hst2
    subst hdoc2
    refine ⟨rfl, ?_⟩
    have hq0 := querySelector_domReplaceFirst (Comp.updateState initF merge st o).id
      { compId := markupCompId (Comp.updateState initF merge st o),
        html := Comp.toHtml (Comp.updateState initF merge st o), listeners := [] }
      hmark doc doc1 hd
    have hq1 := querySelector_attachAll (Comp.updateState initF merge st o).id
      (Comp.updateState initF merge st o).registrations doc1 _ hq0
    rw [← hidU]
    unfold Comp.doRegistrations
    simpa [hmark] using hq1

/-- C2 (amended) witness: a concrete update of `c2wNode` (which holds a
listener registered outside `init`) in the one-element document
`c2wDoc`. -/
theorem C2_amended_update_rebinds_init_registrations_witness :
    (∀ s : Comp Unit, (Comp.init s).id = s.id) ∧
    (Comp.updateState Comp.init (fun (u : Unit) (_ : Unit) => u) c2wNode ()).renderMode
      ≠ some TagRenderMode.startTag ∧
    Comp.update Comp.init (fun (u : Unit) (_ : Unit) => u) c2wNode () c2wDoc =
      some (c2wAfter, c2wDoc2) ∧
    (c2wAfter = Comp.updateState Comp.init (fun (u : Unit) (_ : Unit) => u) c2wNode () ∧
    querySelectorById c2wNode.id c2wDoc2 =
      some { compId := some c2wNode.id, html := Comp.toHtml c2wAfter,
             listeners := c2wAfter.registrations }) :=
  ⟨fun _ => rfl, by decide, rfl,
    C2_amended_update_rebinds_init_registrations Unit Unit Comp.init (fun u _ => u)
      c2wNode () c2wDoc c2wDoc2 c2wAfter (fun _ => rfl) (by decide) rfl⟩

/-- `For.init` never reads the five fields its base reset overwrites:
it is determined by the identity, the options, the content and the
parent of its argument. -/
theorem For.init_key (s t : Comp (ForOptions α))
    (h1 : s.id = t.id) (h2 : s.options = t.options) (h3 : s.content = t.content)
    (h4 : s.parent = t.parent) : For.init s = For.init t := by
  simp only [For.init, BuiltinComp.init, Comp.init]
  rw [h1, h2, h3, h4]

/-- C4: an update never leaks state from an earlier configuration.
First, generically: for every initialisation function that preserves
`id`, `options`, `content` and `parent` and reads nothing else of the
previous state, two successive updates of a freshly constructed node
yield exactly the state constructed directly from the final merged
configuration.  Second, concretely for the `For` variant: the twice
updated node equals the directly constructed one, and its child count
always equals the length of the latest supplied data sequence. -/
theorem C4_update_reinitializes_from_scratch :
    (∀ (T P : Type) (initF : Comp T → Comp T) (merge : T → P → T),
      (∀ s, (initF s).id = s.id) →
      (∀ s, (initF s).options = s.options) →
      (∀ s, (initF s).content = s.content) →
      (∀ s, (initF s).parent = s.parent) →
      (∀ s t, s.id = t.id → s.options = t.options → s.content = t.content →
        s.parent = t.parent → initF s = initF t) →
      ∀ (id : String) (o : T) (p1 p2 : P),
        Comp.updateState initF merge
            (Comp.updateState initF merge (Comp.new initF id o) p1) p2 =
          Comp.new initF id (merge (merge o p1) p2)) ∧
    (∀ (α : Type) (id : String) (o : ForOptions α) (p1 p2 : ForOptionsPartial α),
      (Comp.updateState For.init For.mergeOptions
          (Comp.updateState For.init For.mergeOptions (Comp.new For.init id o) p1) p2 =
        Comp.new For.init id (For.mergeOptions (For.mergeOptions o p1) p2)) ∧
      (Comp.updateState For.init For.mergeOptions
          (Comp.updateState For.init For.mergeOptions (Comp.new For.init id o) p1)
            p2).children.length =
        (For.mergeOptions (For.mergeOptions o p1) p2).data.length) := by
  constructor
  · intro T P initF merge hid hoptions hcontent hparent hkey id o p1 p2
    apply hkey <;>
      simp [Comp.updateState, Comp.new, hid, hoptions, hcontent, hparent]
  · intro α id o p1 p2
    refine ⟨rfl, ?_⟩
    simp [Comp.updateState, Comp.new, For.init, BuiltinComp.init, Comp.init,
      For.mergeOptions, setAttr]

/-- C4 witness: the generic part applied to the `For` initialisation
(which satisfies all four frame conditions) at a concrete node whose
data shrinks from three entries to one and then grows to two. -/
theorem C4_update_reinitializes_from_scratch_witness :
    Comp.updateState For.init For.mergeOptions
        (Comp.updateState For.init For.mergeOptions (Comp.new For.init "f1" c4Opts) c4P1)
        c4P2 =
      Comp.new For.init "f1" (For.mergeOptions (For.mergeOptions c4Opts c4P1) c4P2) :=
  C4_update_reinitializes_from_scratch.1 (ForOptions Nat) (ForOptionsPartial Nat)
    For.init For.mergeOptions (fun _ => rfl) (fun _ => rfl) (fun _ => rfl) (fun _ => rfl)
    For.init_key "f1" c4Opts c4P1 c4P2

/-- C9 witness: the concrete node `c9Node` with attributes of all three
value kinds has exactly the spec shape. -/
theorem C9_markup_shape_witness :
    c9Node.renderMode ≠ some TagRenderMode.selfClosing ∧
    c9Node.renderMode ≠ some TagRenderMode.startTag ∧
    Comp.toHtml c9Node =
      openingTagSpec c9Node.tagName c9Node.id c9Node.classNames c9Node.attributes ++
        jsOr c9Node.content (childrenHtml c9Node.children) ++ "</" ++ c9Node.tagName ++ ">" :=
  ⟨by decide, by decide, C9_markup_shape Unit c9Node (by decide) (by decide)⟩

end CompJs
